import Mathlib

/-!
Verification of the lab-08 notebook (predator-prey and pendulum ODE models).

The notebook defines two right-hand-side ("derivative") functions for first-order
ODE systems and feeds them to SciPy's `odeint` integrator and `minimize` optimizer.
Python floats are idealised as real numbers, as the specification's properties are
stated in exact real arithmetic; NumPy 1-d arrays of length 2 are modelled as pairs.
-/

namespace Lab08

open Real

/-- The predator-prey derivative from the notebook: given the state `rf = (r, f)`
(rabbits, foxes) and a time `t`, return `(0.08 r − 0.0004 r f, −0.09 f + 0.0005 r f)`. -/
noncomputable def drfdt (rf : ℝ × ℝ) (t : ℝ) : ℝ × ℝ :=
  let r := rf.1
  let f := rf.2
  let drdt := 0.08 * r - 0.0004 * r * f
  let dfdt := -0.09 * f + 0.0005 * r * f
  (drdt, dfdt)

/-- Modelled from the spec: the notebook leaves the body of `dthetavdt` to the
student (the source cell holds only a placeholder), so the definition is taken
from the specification's pendulum variant: state `(θ, v)`, derivative
`(v, −(g/L)·sin θ)` with `g/L` fixed at `10`, no dependence on `t`. -/
noncomputable def dthetavdt (thetav : ℝ × ℝ) (t : ℝ) : ℝ × ℝ :=
  (thetav.2, -10 * Real.sin thetav.1)

/-- NumPy's `isclose` predicate on scalars with its default tolerances
`rtol = 1e-5`, `atol = 1e-8`: `|a − b| ≤ atol + rtol·|b|`. -/
def isclose (a b : ℝ) : Prop := |a - b| ≤ 1e-8 + 1e-5 * |b|

/-- NumPy's `allclose` on 2-vectors: componentwise `isclose`. -/
def allclose2 (x y : ℝ × ℝ) : Prop := isclose x.1 y.1 ∧ isclose x.2 y.2

/-- The underlying 1-d array of a 2-d state, used to speak about dimensions. -/
def vecOf (p : ℝ × ℝ) : List ℝ := [p.1, p.2]

/-- One step of the improved Euler (Heun) method of step size `h` at time `t`. -/
noncomputable def eulerImprovedStep (f : ℝ × ℝ → ℝ → ℝ × ℝ) (y : ℝ × ℝ) (t h : ℝ) :
    ℝ × ℝ :=
  let k1 := f y t
  let k2 := f (y.1 + h * k1.1, y.2 + h * k1.2) (t + h)
  (y.1 + h / 2 * (k1.1 + k2.1), y.2 + h / 2 * (k1.2 + k2.2))

/-- Iterate `n` improved-Euler steps of size `h` starting at time `t`. -/
noncomputable def stepIter (f : ℝ × ℝ → ℝ → ℝ × ℝ) : ℕ → ℝ × ℝ → ℝ → ℝ → ℝ × ℝ
  | 0, y, _, _ => y
  | Nat.succ m, y, t, h => stepIter f m (eulerImprovedStep f y t h) (t + h) h

/-- Number of internal substeps the solver model takes between two query times. -/
def substeps : ℕ := 100

/-- Advance the state from query time `t0` to query time `t1` using `substeps`
equal substeps. -/
noncomputable def integrateTo (f : ℝ × ℝ → ℝ → ℝ × ℝ) (y : ℝ × ℝ) (t0 t1 : ℝ) :
    ℝ × ℝ :=
  stepIter f substeps y t0 ((t1 - t0) / substeps)

/-- States at the remaining query times, given the state `y` at query time `t0`. -/
noncomputable def odeintFrom (f : ℝ × ℝ → ℝ → ℝ × ℝ) (y : ℝ × ℝ) (t0 : ℝ) :
    List ℝ → List (ℝ × ℝ)
  | [] => []
  | t1 :: rest =>
      let y1 := integrateTo f y t0 t1
      y1 :: odeintFrom f y1 t1 rest

/-- Modelled from the spec: `odeint` is SciPy's external IVP solver, absent from
the repository; per the specification's solver contract it returns a trajectory
with one state per query time, the first query time being the time of the given
initial state. Internal stepping (which the spec leaves to the external library)
is modelled as improved Euler with a fixed number of substeps per query interval,
the method the notebook says `odeint` replaces. -/
noncomputable def odeint (f : ℝ × ℝ → ℝ → ℝ × ℝ) (y0 : ℝ × ℝ) :
    List ℝ → List (ℝ × ℝ)
  | [] => []
  | t0 :: rest => y0 :: odeintFrom f y0 t0 rest

/-- NumPy's `linspace a b n`: `n` evenly spaced points from `a` to `b`. -/
noncomputable def linspace (a b : ℝ) (n : ℕ) : List ℝ :=
  (List.range n).map (fun (i : ℕ) => a + (b - a) * (i : ℝ) / ((n : ℝ) - 1))

/-- The notebook's objective function: the rabbit population at time `t`,
obtained as the first component of the last row of the solver trajectory from
the initial state `(300, 100)` over the time sequence `[0, t]`. -/
noncomputable def rabbits (t : ℝ) : ℝ :=
  ((odeint drfdt (300, 100) [0, t]).getLastD (0, 0)).1

/-- Modelled from the spec: the record returned by the external minimizer,
holding at least the optimal input, a convergence flag and the optimal value. -/
structure MinimizeResult where
  optimal_input : ℝ
  converged : Bool
  optimal_value : ℝ

/-- The notebook code that follows the `minimize` call: it reads `result.x[0]`
and prints it, unconditionally. Modelled as the value that the print statement
reports. -/
def reportRebound (res : MinimizeResult) : ℝ := res.optimal_input

/-! ## Helper lemmas -/

/-- An improved-Euler step of size zero leaves the state unchanged. -/
lemma eulerImprovedStep_zero (f : ℝ × ℝ → ℝ → ℝ × ℝ) (y : ℝ × ℝ) (t : ℝ) :
    eulerImprovedStep f y t 0 = y := by
  simp [eulerImprovedStep]

/-- Iterating improved-Euler steps of size zero leaves the state unchanged. -/
lemma stepIter_zero (f : ℝ × ℝ → ℝ → ℝ × ℝ) (n : ℕ) :
    ∀ y t, stepIter f n y t 0 = y := by
  induction n with
  | zero => intro y t; rfl
  | succ m ih => intro y t; simp [stepIter, eulerImprovedStep_zero, ih]

/-- Integrating from a query time to itself leaves the state unchanged. -/
lemma integrateTo_self (f : ℝ × ℝ → ℝ → ℝ × ℝ) (y : ℝ × ℝ) (t : ℝ) :
    integrateTo f y t t = y := by
  simp [integrateTo, stepIter_zero]

/-- The trajectory over a two-point sequence of one repeated time is the
initial state twice. -/
lemma odeint_pair_self (f : ℝ × ℝ → ℝ → ℝ × ℝ) (y0 : ℝ × ℝ) (t : ℝ) :
    odeint f y0 [t, t] = [y0, y0] := by
  simp [odeint, odeintFrom, integrateTo_self]

/-- On a nonempty time sequence the trajectory starts with the initial state. -/
lemma odeint_head (f : ℝ × ℝ → ℝ → ℝ × ℝ) (y0 : ℝ × ℝ) (ts : List ℝ)
    (h : ts ≠ []) : (odeint f y0 ts).head? = some y0 := by
  cases ts with
  | nil => exact absurd rfl h
  | cons t rest => rfl

/-- Rational lower bound for `√2`. -/
lemma sqrt_two_gt : (1.414213 : ℝ) < Real.sqrt 2 :=
  (Real.lt_sqrt (by norm_num)).mpr (by norm_num)

/-- Rational upper bound for `√2`. -/
lemma sqrt_two_lt : Real.sqrt 2 < 1.414214 :=
  (Real.sqrt_lt' (by norm_num)).mpr (by norm_num)

/-- Rational lower bound for `√3`. -/
lemma sqrt_three_gt : (1.732050 : ℝ) < Real.sqrt 3 :=
  (Real.lt_sqrt (by norm_num)).mpr (by norm_num)

/-- Rational upper bound for `√3`. -/
lemma sqrt_three_lt : Real.sqrt 3 < 1.732051 :=
  (Real.sqrt_lt' (by norm_num)).mpr (by norm_num)

/-- Closed form of `sin (π/12)`, from `π/12 = π/3 − π/4`. -/
lemma sin_pi_div_twelve_eq :
    Real.sin (π / 12) = Real.sqrt 2 * (Real.sqrt 3 - 1) / 4 := by
  have h : (π : ℝ) / 3 - π / 4 = π / 12 := by ring
  rw [← h, Real.sin_sub, Real.sin_pi_div_three, Real.cos_pi_div_four,
    Real.cos_pi_div_three, Real.sin_pi_div_four]
  ring

/-! ## Claims -/

/-- C1: for every real pair `(θ, v)` and time `t`, the first component of
`dthetavdt (θ, v) t` is exactly `v`, and the second is `−10·sin θ` exactly,
hence in particular within floating-point tolerance. -/
theorem dthetavdt_components (θ v t : ℝ) :
    (dthetavdt (θ, v) t).1 = v ∧
    (dthetavdt (θ, v) t).2 = -10 * Real.sin θ ∧
    isclose (dthetavdt (θ, v) t).2 (-10 * Real.sin θ) := by
  refine ⟨rfl, rfl, ?_⟩
  unfold isclose dthetavdt
  simp only [sub_self, abs_zero]
  positivity

/-- C2: for every real pair `(r, f)` and any times, `drfdt (r, f) t` equals
`(0.08 r − 0.0004 r f, −0.09 f + 0.0005 r f)` and is independent of `t`. -/
theorem drfdt_formula (r f t t1 t2 : ℝ) :
    drfdt (r, f) t = (0.08 * r - 0.0004 * r * f, -0.09 * f + 0.0005 * r * f) ∧
    drfdt (r, f) t1 = drfdt (r, f) t2 :=
  ⟨rfl, rfl⟩

/-- C3: each derivative function returns a 2-vector, matching the dimension of
its input state and of the initial states `(300, 100)` and `(θ0, v0)`. -/
theorem deriv_dim_invariant (rf θv : ℝ × ℝ) (t : ℝ) :
    (vecOf (drfdt rf t)).length = (vecOf rf).length ∧
    (vecOf (dthetavdt θv t)).length = (vecOf θv).length ∧
    (vecOf (drfdt rf t)).length = (vecOf ((300 : ℝ), (100 : ℝ))).length ∧
    (vecOf (dthetavdt θv t)).length = 2 := by
  simp [vecOf]

/-- C9: in exact real arithmetic `(180, 200)` is an equilibrium of the
predator-prey derivative: `drfdt (180, 200) t = (0, 0)` for every `t`. -/
theorem drfdt_equilibrium (t : ℝ) : drfdt (180, 200) t = (0, 0) := by
  unfold drfdt
  norm_num

/-- C8: the notebook's post-minimize step depends only on the record's optimal
input (`result.x[0]`): results differing in any other field, in particular in
the converged flag, produce the same behaviour. -/
theorem reportRebound_no_branch (r1 r2 : MinimizeResult)
    (h : r1.optimal_input = r2.optimal_input) :
    reportRebound r1 = reportRebound r2 := h

/-- C8 witness: two concrete results, one converged and one not, with the same
optimal input, report the same value. -/
theorem reportRebound_no_branch_witness :
    reportRebound ⟨40, true, 0⟩ = reportRebound ⟨40, false, 0⟩ :=
  reportRebound_no_branch ⟨40, true, 0⟩ ⟨40, false, 0⟩ rfl

/-- C10: `drfdt` and `rabbits` are deterministic (and, as pure functions of
their arguments in this embedding, side-effect free): equal arguments give
equal results. -/
theorem drfdt_rabbits_deterministic (rf rf' : ℝ × ℝ) (t t' u u' : ℝ)
    (h1 : rf = rf') (h2 : t = t') (h3 : u = u') :
    drfdt rf t = drfdt rf' t' ∧ rabbits u = rabbits u' := by
  subst h1; subst h2; subst h3
  exact ⟨rfl, rfl⟩

/-- C10 witness: determinism at concrete arguments. -/
theorem drfdt_rabbits_deterministic_witness :
    drfdt (300, 100) 0 = drfdt (300, 100) 0 ∧ rabbits 40 = rabbits 40 :=
  drfdt_rabbits_deterministic (300, 100) (300, 100) 0 0 40 40 rfl rfl rfl

/-- C4: for positive populations, the rabbit derivative is strictly positive
when `f < 200` and the fox derivative is strictly positive when `r > 180`. -/
theorem drfdt_sign (r f t : ℝ) (hr : 0 < r) (hf : 0 < f) :
    (f < 200 → 0 < (drfdt (r, f) t).1) ∧
    (180 < r → 0 < (drfdt (r, f) t).2) := by
  have e1 : (drfdt (r, f) t).1 = 0.08 * r - 0.0004 * r * f := rfl
  have e2 : (drfdt (r, f) t).2 = -0.09 * f + 0.0005 * r * f := rfl
  constructor
  · intro h
    rw [e1]
    nlinarith [mul_pos hr (show (0 : ℝ) < 200 - f by linarith)]
  · intro h
    rw [e2]
    nlinarith [mul_pos hf (show (0 : ℝ) < r - 180 by linarith)]

/-- C4 witness: the sign conditions hold at the notebook's initial state
`(300, 100)` at time `0`. -/
theorem drfdt_sign_witness :
    (0 : ℝ) < 300 ∧ (0 : ℝ) < 100 ∧
    ((100 : ℝ) < 200 → 0 < (drfdt (300, 100) 0).1) ∧
    ((180 : ℝ) < 300 → 0 < (drfdt (300, 100) 0).2) :=
  ⟨by norm_num, by norm_num,
    (drfdt_sign 300 100 0 (by norm_num) (by norm_num)).1,
    (drfdt_sign 300 100 0 (by norm_num) (by norm_num)).2⟩

/-- C5: for every derivative function and initial state, integrating over the
two-point sequence `[0, 0]` returns the initial state unchanged, and in
particular `rabbits 0 = 300`. -/
theorem odeint_zero_length (f : ℝ × ℝ → ℝ → ℝ × ℝ) (y0 : ℝ × ℝ) :
    odeint f y0 [0, 0] = [y0, y0] ∧ rabbits 0 = 300 := by
  refine ⟨odeint_pair_self f y0 0, ?_⟩
  unfold rabbits
  rw [odeint_pair_self]
  rfl

/-- C6: the trajectory of the predator-prey system from `(300, 100)` over the
100-point grid `linspace 0 100 100` starts with exactly `(300, 100)`. -/
theorem odeint_linspace_first :
    (odeint drfdt (300, 100) (linspace 0 100 100)).head? =
      some ((300 : ℝ), (100 : ℝ)) := by
  refine odeint_head drfdt (300, 100) _ ?_
  apply List.ne_nil_of_length_pos
  simp [linspace]

/-- C7: for every time `t`, `dthetavdt (π/12, 0) t` is within NumPy `allclose`
tolerance of `(0, −2.5881904510252074)`, the second component being
`−10·sin (π/12)`. -/
theorem dthetavdt_pendulum_start (t : ℝ) :
    allclose2 (dthetavdt (π / 12, 0) t) (0, -2.5881904510252074) := by
  have h2l := sqrt_two_gt
  have h2u := sqrt_two_lt
  have h3l := sqrt_three_gt
  have h3u := sqrt_three_lt
  have p1 : (1.414213 : ℝ) * 1.732050 < Real.sqrt 2 * Real.sqrt 3 :=
    mul_lt_mul'' h2l h3l (by norm_num) (by norm_num)
  have p2 : Real.sqrt 2 * Real.sqrt 3 < 1.414214 * 1.732051 :=
    mul_lt_mul'' h2u h3u (Real.sqrt_nonneg 2) (Real.sqrt_nonneg 3)
  constructor
  · show isclose 0 0
    unfold isclose
    norm_num
  · show isclose (-10 * Real.sin (π / 12)) (-2.5881904510252074)
    unfold isclose
    rw [sin_pi_div_twelve_eq, abs_le]
    have habs : |(-2.5881904510252074 : ℝ)| = 2.5881904510252074 := by
      rw [abs_of_neg] <;> norm_num
    rw [habs]
    constructor <;> nlinarith

end Lab08
